import Mathlib

/-!
Verification of the Ubuntu Voice Recorder / Transcriber pipeline.

Shallow embedding of the pipeline modules of the repository:
  * `src/transcription_service.py` — the transcription orchestrator
    (`TranscriptionService.transcribe_file`), the confidence heuristic
    (`_estimate_confidence`) and the raw-frame path (`transcribe_audio_data`);
  * `src/whisper_api.py` — the remote transcriber (`WhisperAPI.transcribe_file`);
  * `src/audio_recorder.py` — capture state machine, level metering,
    WAV persistence (`_save_audio_data`);
  * `src/file_manager.py` — recording store (`save`, `list`, `delete`,
    `cleanup_retention`).

External effects (HTTP exchanges, the Vosk recognizer's per-chunk answers,
the wave container read by the local decoder, the clock, the filesystem)
are passed in as explicit data; the Lean functions mirror the control flow
of the Python source on that data.  Python floats carrying the discrete
confidence constants are modelled as rationals; the real-valued dB
computation is modelled over `ℝ`.
-/

namespace VoiceRecorder

/-- `TranscriptionResult` dataclass of `transcription_service.py`:
`{text, confidence, language}`. -/
structure TranscriptionResult where
  text : String
  confidence : ℚ
  language : String
deriving DecidableEq, Repr

/-- `WhisperTranscriptionResult` dataclass of `whisper_api.py`. -/
structure WhisperTranscriptionResult where
  text : String
  confidence : ℚ
  language : String
deriving DecidableEq, Repr

/-- Helper for `pySplit`: walk the characters, `cur` holds the current word
reversed. -/
def splitWsAux : List Char → List Char → List String
  | [], cur => if cur.isEmpty then [] else [⟨cur.reverse⟩]
  | c :: cs, cur =>
      if c.isWhitespace then
        if cur.isEmpty then splitWsAux cs [] else ⟨cur.reverse⟩ :: splitWsAux cs []
      else splitWsAux cs (c :: cur)

/-- Python's `str.split()` with no separator: split on whitespace runs,
dropping empty pieces. -/
def pySplit (s : String) : List String :=
  splitWsAux s.data []

/-- Python's `str.strip()`: drop leading and trailing whitespace. -/
def pyStrip (s : String) : String :=
  ⟨((s.data.dropWhile Char.isWhitespace).reverse.dropWhile Char.isWhitespace).reverse⟩

/-- Number of words of a transcript, as `len(text.split())` computes it. -/
def wordCount (s : String) : Nat :=
  (pySplit s).length

/-- `TranscriptionService._estimate_confidence` (transcription_service.py,
lines 238-261): empty text gives 0.0, otherwise the word count of the text
is bucketed to 0.0 / 0.6 / 0.8 / 0.9. -/
def estimate_confidence (text : String) : ℚ :=
  if text = "" then 0
  else
    let word_count := wordCount text
    if word_count = 0 then 0
    else if word_count < 3 then 6/10
    else if word_count < 10 then 8/10
    else 9/10

/-- Modelled from the spec: the word-count → confidence mapping as section 8
of the spec states it (0 words: 0.0, fewer than 3: 0.6, fewer than 10: 0.8,
otherwise 0.9), to be compared with `estimate_confidence` from the source. -/
def spec_confidence_of_wordcount (wc : Nat) : ℚ :=
  if wc = 0 then 0
  else if wc < 3 then 6/10
  else if wc < 10 then 8/10
  else 9/10

/-- An HTTP response as `whisper_api.py` consumes it: the status code and the
two JSON fields the code reads (`text`, `language`); a field absent from the
response body is `none` (Python's `result.get` default then applies). -/
structure HttpResponse where
  status : Nat
  jsonText : Option String
  jsonLanguage : Option String
deriving DecidableEq, Repr

/-- `WhisperAPI.transcribe_file` (whisper_api.py, lines 32-74) on the response
of its POST: `none` at the outside models an exception during the exchange
(caught, returns `None`); a non-200 status returns `None`; a 200 status yields
`{text: body text stripped, confidence: 0.9, language: body language or
"en-us"}`. -/
def whisper_transcribe (resp : Option HttpResponse) : Option WhisperTranscriptionResult :=
  match resp with
  | none => none
  | some r =>
      if r.status = 200 then
        some { text := pyStrip (r.jsonText.getD "")
             , confidence := 9/10
             , language := r.jsonLanguage.getD "en-us" }
      else none

/-- What the local Vosk decode path of `transcribe_file` reads from the
(preprocessed) wave file and from the recognizer: header fields
(`getnchannels`, `getsampwidth` in bytes, `getframerate`), and, per non-empty
chunk read, `some t` when `AcceptWaveform` returned true with `Result` text
`t` (`none` when it returned false); `finalText` is the `FinalResult` text. -/
structure LocalWav where
  nchannels : Nat
  sampwidth : Nat
  framerate : Nat
  chunks : List (Option String)
  finalText : String
deriving DecidableEq, Repr

/-- The `full_result` accumulation of the chunk loop (transcription_service.py,
lines 203-213): each accepted chunk's stripped text, when non-empty, is
appended followed by a space. -/
def accumChunks (chunks : List (Option String)) : String :=
  List.foldl
    (fun acc c =>
      match c with
      | some t => if pyStrip t ≠ "" then acc ++ pyStrip t ++ " " else acc
      | none => acc)
    "" chunks

/-- The final `full_result` of the local decode: the chunk accumulation, then
the stripped `FinalResult` text appended when non-empty, then one outer
strip (transcription_service.py, lines 214-218). -/
def localFullText (w : LocalWav) : String :=
  let fr := accumChunks w.chunks
  let ft := pyStrip w.finalText
  pyStrip (if ft ≠ "" then fr ++ ft else fr)

/-- The local Vosk decode of `TranscriptionService.transcribe_file`
(transcription_service.py, lines 193-233): format validation, chunk loop,
final flush, empty-result handling, confidence estimation.  The second
component records whether any audio was fed to the recognizer (false when
validation rejected the file before the loop). -/
def localDecode (w : LocalWav) : Option TranscriptionResult × Bool :=
  if w.nchannels ≠ 1 then (none, false)
  else if w.sampwidth ≠ 2 then (none, false)
  else if localFullText w = "" then
    (some { text := "", confidence := 0, language := "en-us" }, true)
  else
    (some { text := localFullText w, confidence := estimate_confidence (localFullText w)
          , language := "en-us" }, true)

/-- Inputs of `TranscriptionService.transcribe_audio_data`
(transcription_service.py, lines 263-319): service availability, the sample
rate argument, whether `AcceptWaveform` returned true, the `Result` text when
it did, the `PartialResult` text when it did not, and the `FinalResult`
text. -/
structure RawFrames where
  available : Bool
  sample_rate : Nat
  accepted : Bool
  acceptText : String
  interimText : String
  finalText : String
deriving DecidableEq, Repr

/-- The `full_text` a `transcribe_audio_data` call assembles: accepted (or
interim) text stripped, joined to the stripped final text with a space,
stripped again. -/
def rawFullText (d : RawFrames) : String :=
  pyStrip (pyStrip (if d.accepted then d.acceptText else d.interimText)
             ++ " " ++ pyStrip d.finalText)

/-- `TranscriptionService.transcribe_audio_data`: unavailable service returns
`None`; otherwise an empty assembled result carries confidence 0.0, a
non-empty one the word-count heuristic. -/
def transcribe_audio_data (d : RawFrames) : Option TranscriptionResult :=
  if d.available = false then none
  else if rawFullText d = "" then
    some { text := "", confidence := 0, language := "en-us" }
  else
    some { text := rawFullText d, confidence := estimate_confidence (rawFullText d)
         , language := "en-us" }

/-- Environment of one `TranscriptionService.transcribe_file` call: whether
the input file exists, what `is_online()` reports, what
`self.gpt_api.transcribe_file` would return if called, whether
`is_available()` holds (model and recognizer loaded), and what the local
decode would read if it runs. -/
structure TransEnv where
  fileExists : Bool
  online : Bool
  remoteResult : Option WhisperTranscriptionResult
  available : Bool
  wav : LocalWav
deriving DecidableEq, Repr

/-- Observable outcome of one `transcribe_file` call: the returned value plus
which backends were exercised. -/
structure Trace where
  result : Option TranscriptionResult
  remoteCalled : Bool
  localInvoked : Bool
deriving DecidableEq, Repr

/-- `TranscriptionService.transcribe_file` (transcription_service.py, lines
160-236): missing file returns `None`; online with a remote result returns
that result's fields immediately; otherwise fall back to the local Vosk path,
which returns `None` when the service is unavailable. -/
def transcribe_file (e : TransEnv) : Trace :=
  if e.fileExists = false then { result := none, remoteCalled := false, localInvoked := false }
  else
    match e.online, e.remoteResult with
    | true, some r =>
        { result := some { text := r.text, confidence := r.confidence, language := r.language }
        , remoteCalled := true, localInvoked := false }
    | true, none =>
        if e.available = false then { result := none, remoteCalled := true, localInvoked := false }
        else { result := (localDecode e.wav).1, remoteCalled := true, localInvoked := true }
    | false, _ =>
        if e.available = false then { result := none, remoteCalled := false, localInvoked := false }
        else { result := (localDecode e.wav).1, remoteCalled := false, localInvoked := true }

theorem pySplit_empty : pySplit "" = [] := rfl

/-- C4: the word-count confidence heuristic is a pure function of the
transcribed text: every text's confidence is determined by its word count
via the spec's bucket mapping, and the buckets send word counts
0, 1, 2, 3, 9, 10, 50 to 0.0, 0.6, 0.6, 0.8, 0.8, 0.9, 0.9. -/
theorem estimate_confidence_pure_of_wordcount :
    (∀ text : String,
      estimate_confidence text = spec_confidence_of_wordcount (wordCount text)) ∧
    spec_confidence_of_wordcount 0 = 0 ∧
    spec_confidence_of_wordcount 1 = 6/10 ∧
    spec_confidence_of_wordcount 2 = 6/10 ∧
    spec_confidence_of_wordcount 3 = 8/10 ∧
    spec_confidence_of_wordcount 9 = 8/10 ∧
    spec_confidence_of_wordcount 10 = 9/10 ∧
    spec_confidence_of_wordcount 50 = 9/10 := by
  refine ⟨?_, rfl, rfl, rfl, rfl, rfl, rfl, rfl⟩
  intro text
  by_cases h : text = ""
  · subst h
    simp [estimate_confidence, spec_confidence_of_wordcount, wordCount, pySplit_empty]
  · simp [estimate_confidence, spec_confidence_of_wordcount, h]

/-- Signed 16-bit wrap-around: the representative of `x` modulo 2^16 lying
in [-32768, 32767].  numpy arithmetic on an `int16` array stays in `int16`
and wraps silently. -/
def wrap16 (x : ℤ) : ℤ :=
  (x + 32768) % 65536 - 32768

/-- The per-sample squared value `audio_array**2` actually produces
(audio_recorder.py, line 58): the square is computed in `int16`, so it
wraps mod 2^16 — e.g. 32767² ≡ 1, and many squares wrap to negative
values. -/
def sq16 (s : ℤ) : ℤ :=
  wrap16 (s * s)

/-- The `rms` value of `_calculate_audio_level`:
`np.sqrt(np.mean(audio_array**2))` over the int16-wrapped squares (the mean
itself is taken in float64).  A negative wrapped mean yields NaN in numpy
and `Real.sqrt` yields 0 here; under the code's `rms > 0` test both fall to
the -80 floor, so the observable level agrees.  The mean of an empty frame
(NaN in numpy, 0/0 = 0 here) likewise falls to the floor either way. -/
noncomputable def frameRMS (frame : List ℤ) : ℝ :=
  Real.sqrt ((frame.map (fun s => ((sq16 s : ℤ) : ℝ))).sum / frame.length)

/-- `AudioRecorder._calculate_audio_level` (audio_recorder.py, lines 51-66):
positive RMS is converted to dB relative to the 32767 full scale, a
non-positive RMS gives the -80 floor, and the result is clamped to -80 from
below; the Python body wraps everything in a bare `except` returning -80, so
no input raises. -/
noncomputable def calculate_audio_level (frame : List ℤ) : ℝ :=
  max (if frameRMS frame > 0 then 20 * Real.logb 10 (frameRMS frame / 32767) else -80) (-80)

/-- Fixed capture format of `AudioRecorder.__init__` (audio_recorder.py,
lines 25-28): 16 kHz sample rate. -/
def sample_rate : Nat := 16000

/-- Mono capture: one channel. -/
def channels : Nat := 1

/-- Samples per captured frame. -/
def chunk_size : Nat := 1024

/-- Bytes per sample: `pyaudio.get_sample_size(paInt16)` = 2. -/
def sampleWidthBytes : Nat := 2

/-- Byte size of the RIFF/PCM header Python's `wave` module writes before
the payload: 12 (RIFF) + 24 (fmt chunk) + 8 (data chunk header). -/
def wavHeaderBytes : Nat := 44

/-- A wall-clock instant with second resolution, as
`datetime.now().strftime("%Y%m%d_%H%M%S")` consumes it. -/
structure Timestamp where
  year : Nat
  month : Nat
  day : Nat
  hour : Nat
  minute : Nat
  second : Nat
deriving DecidableEq, Repr

/-- Zero-pad to two digits, as `strftime` renders `%m %d %H %M %S`. -/
def pad2 (n : Nat) : String :=
  if n < 10 then "0" ++ toString n else toString n

/-- Zero-pad to four digits, as `strftime` renders `%Y`. -/
def pad4 (n : Nat) : String :=
  if n < 10 then "000" ++ toString n
  else if n < 100 then "00" ++ toString n
  else if n < 1000 then "0" ++ toString n
  else toString n

/-- `strftime("%Y%m%d_%H%M%S")` on a timestamp. -/
def formatTimestamp (t : Timestamp) : String :=
  pad4 t.year ++ pad2 t.month ++ pad2 t.day ++ "_"
    ++ pad2 t.hour ++ pad2 t.minute ++ pad2 t.second

/-- What a save path leaves on disk: the file name, the wave format fields
written into the container, the byte size `os.path.getsize` reports
(header plus payload), and the permission bits explicitly applied to the
file by the save path (`none` when the path performs no `chmod`). -/
structure WrittenFile where
  filename : String
  nchannels : Nat
  sampwidth : Nat
  framerate : Nat
  sizeBytes : Nat
  permSet : Option Nat
deriving DecidableEq, Repr

/-- `AudioRecorder._save_audio_data` (audio_recorder.py, lines 167-196):
names the file `recording_<YYYYMMDD_HHMMSS>.wav` from the current time,
writes the joined buffer chunks in a PCM wave container with the fixed
format, and returns the path.  The buffer is a list of byte chunks.  No
`chmod` occurs anywhere in this path, so `permSet` is `none`. -/
def save_audio_data (now : Timestamp) (audio_data : List (List Nat)) : WrittenFile :=
  { filename := "recording_" ++ formatTimestamp now ++ ".wav"
  , nchannels := channels
  , sampwidth := sampleWidthBytes
  , framerate := sample_rate
  , sizeBytes := wavHeaderBytes + (audio_data.map List.length).sum
  , permSet := none }

/-- Result of `FileManager.save` (file_manager.py, lines 36-54): the blob is
written verbatim and `os.chmod(filepath, 0o600)` then sets owner-only
permissions. -/
structure StoredBlob where
  filename : String
  sizeBytes : Nat
  permSet : Option Nat
deriving DecidableEq, Repr

/-- `FileManager.save`. -/
def fm_save (blob : List Nat) (filename : String) : StoredBlob :=
  { filename := filename, sizeBytes := blob.length, permSet := some 0o600 }

/-- Duration estimate of `FileManager.list` (file_manager.py, line 76):
`int((size_bytes / 32000) * 1000)`, 32000 being the bytes-per-second
constant for 16-bit mono at 16 kHz.  Modelled as the integer floor of
`size_bytes * 1000 / 32000`, the value the float computation truncates to
for file sizes in range. -/
def duration_ms_of_size (size_bytes : Nat) : Nat :=
  size_bytes * 1000 / 32000

/-- Duration of one captured frame in milliseconds: `chunk_size` samples at
`sample_rate` Hz (= 64 ms; `_save_audio_data` itself logs
`len(audio_data) * chunk_size / sample_rate` seconds). -/
def frameDurationMs : Nat := chunk_size * 1000 / sample_rate

/-- A stored recording as `FileManager` sees it: name and modification time
(seconds since the epoch, `st_mtime`). -/
structure FileEntry where
  filename : String
  mtime : Int
deriving DecidableEq, Repr

/-- The filename filter of `FileManager.list` (file_manager.py, line 66):
only `.wav` files are listed. -/
def fm_listed (files : List FileEntry) : List FileEntry :=
  files.filter (fun f => f.filename.endsWith ".wav")

/-- `FileManager.cleanup_retention` (file_manager.py, lines 122-147): a
retention window of zero or negative days returns 0 before touching the
directory; otherwise every listed recording with modification time before
`now - days·86400` is deleted.  Returns the deleted count and the surviving
directory contents. -/
def cleanup_retention (days : Int) (now : Int) (files : List FileEntry) :
    Nat × List FileEntry :=
  if days ≤ 0 then (0, files)
  else
    let cutoff := now - days * 86400
    (((fm_listed files).filter (fun f => decide (f.mtime < cutoff))).length,
     files.filter (fun f => ! (f.filename.endsWith ".wav" && decide (f.mtime < cutoff))))

/-- Capture-session state of `AudioRecorder`: the recording flag and the
buffered chunks. -/
structure RecState where
  is_recording : Bool
  audio_data : List (List Nat)
deriving DecidableEq, Repr

/-- `AudioRecorder.start_recording` (audio_recorder.py, lines 123-142):
refuses when already recording; otherwise sets the flag, spawns the worker
thread and returns True immediately — nothing about the device stream is
checked or awaited here. -/
def start_recording (s : RecState) : Bool × RecState :=
  if s.is_recording then (false, s)
  else (true, { s with is_recording := true })

/-- The worker's stream-open failure path (audio_recorder.py, lines
100-102): the exception is caught inside the worker, `is_recording` is
cleared, and nothing else of the session state changes (the buffer reset at
line 83 is only reached after a successful open); no exception propagates
to the thread that called `start_recording`. -/
def worker_stream_open_failure (s : RecState) : RecState :=
  { s with is_recording := false }

/-- `AudioRecorder.stop_recording` (audio_recorder.py, lines 144-165): not
currently recording returns `None`; otherwise the flag is cleared, the
worker joined, and the buffer saved when non-empty. -/
def stop_recording (now : Timestamp) (s : RecState) : Option WrittenFile × RecState :=
  if s.is_recording = false then (none, s)
  else
    let s1 : RecState := { s with is_recording := false }
    if s1.audio_data.isEmpty then (none, s1)
    else (some (save_audio_data now s1.audio_data), s1)

/-- Every result the remote transcriber produces carries the fixed
confidence 0.9 (whisper_api.py, line 59). -/
theorem whisper_confidence_const (resp : Option HttpResponse)
    (res : WhisperTranscriptionResult)
    (h : whisper_transcribe resp = some res) : res.confidence = 9/10 := by
  cases resp with
  | none => simp [whisper_transcribe] at h
  | some r =>
      by_cases hs : r.status = 200
      · simp [whisper_transcribe, hs] at h
        rw [← h]
      · simp [whisper_transcribe, hs] at h

/-- C1: on an existing file, when the connectivity probe reports online and
the remote transcriber returns a result, `transcribe_file` returns that
result's text and language with confidence 0.9 immediately, and the local
Vosk recognizer is never invoked. -/
theorem transcribe_file_remote_priority (e : TransEnv) (resp : Option HttpResponse)
    (res : WhisperTranscriptionResult)
    (hex : e.fileExists = true) (hon : e.online = true)
    (hrm : e.remoteResult = whisper_transcribe resp)
    (hres : whisper_transcribe resp = some res) :
    (transcribe_file e).result
      = some { text := res.text, confidence := 9/10, language := res.language } ∧
    (transcribe_file e).localInvoked = false := by
  have hc := whisper_confidence_const resp res hres
  rw [hres] at hrm
  simp [transcribe_file, hex, hon, hrm, hc]

/-- C1 witness: scenario A of the spec at a concrete environment. -/
theorem transcribe_file_remote_priority_witness :
    (transcribe_file
      { fileExists := true, online := true
      , remoteResult := whisper_transcribe
          (some { status := 200, jsonText := some "hello world", jsonLanguage := some "en" })
      , available := true
      , wav := { nchannels := 1, sampwidth := 2, framerate := 16000
               , chunks := [], finalText := "" } }).result
      = some { text := "hello world", confidence := 9/10, language := "en" } ∧
    (transcribe_file
      { fileExists := true, online := true
      , remoteResult := whisper_transcribe
          (some { status := 200, jsonText := some "hello world", jsonLanguage := some "en" })
      , available := true
      , wav := { nchannels := 1, sampwidth := 2, framerate := 16000
               , chunks := [], finalText := "" } }).localInvoked = false :=
  transcribe_file_remote_priority _
    (some { status := 200, jsonText := some "hello world", jsonLanguage := some "en" })
    { text := "hello world", confidence := 9/10, language := "en" }
    rfl rfl rfl rfl

/-- C2: on an existing file — offline: the remote transcriber is never
called and the local path's result (its decode when available, `None` when
unavailable) is returned directly; online with no remote result: same local
fallback, with the local result returned unchanged. -/
theorem transcribe_file_fallback (e : TransEnv) (hex : e.fileExists = true) :
    (e.online = false →
       (transcribe_file e).remoteCalled = false ∧
       (e.available = true →
          (transcribe_file e).result = (localDecode e.wav).1 ∧
          (transcribe_file e).localInvoked = true) ∧
       (e.available = false → (transcribe_file e).result = none)) ∧
    (e.online = true → e.remoteResult = none →
       (e.available = true →
          (transcribe_file e).result = (localDecode e.wav).1 ∧
          (transcribe_file e).localInvoked = true) ∧
       (e.available = false → (transcribe_file e).result = none)) := by
  refine ⟨fun hoff => ⟨?_, fun hav => ?_, fun hav => ?_⟩,
          fun hon hrm => ⟨fun hav => ?_, fun hav => ?_⟩⟩
  · by_cases hav : e.available = false <;> simp [transcribe_file, hex, hoff, hav]
  · simp [transcribe_file, hex, hoff, hav]
  · simp [transcribe_file, hex, hoff, hav]
  · simp [transcribe_file, hex, hon, hrm, hav]
  · simp [transcribe_file, hex, hon, hrm, hav]

/-- C2 witness: scenario C of the spec (offline) at a concrete environment
with an available recognizer. -/
theorem transcribe_file_fallback_witness :
    (transcribe_file
      { fileExists := true, online := false, remoteResult := none
      , available := true
      , wav := { nchannels := 1, sampwidth := 2, framerate := 16000
               , chunks := [some "hi there"], finalText := "" } }).remoteCalled = false ∧
    (transcribe_file
      { fileExists := true, online := false, remoteResult := none
      , available := true
      , wav := { nchannels := 1, sampwidth := 2, framerate := 16000
               , chunks := [some "hi there"], finalText := "" } }).result
      = (localDecode
          { nchannels := 1, sampwidth := 2, framerate := 16000
          , chunks := [some "hi there"], finalText := "" }).1 := by
  have h := transcribe_file_fallback
    { fileExists := true, online := false, remoteResult := none
    , available := true
    , wav := { nchannels := 1, sampwidth := 2, framerate := 16000
             , chunks := [some "hi there"], finalText := "" } } rfl
  exact ⟨(h.1 rfl).1, ((h.1 rfl).2.1 rfl).1⟩

/-- C3 counterexample: a 200-status remote response whose body text strips to
the empty string makes the orchestrator return a result with empty text and
confidence 0.9, not 0.0 — the remote path violates the empty-text invariant. -/
theorem empty_text_nonzero_confidence_cex :
    (transcribe_file
      { fileExists := true, online := true
      , remoteResult := whisper_transcribe
          (some { status := 200, jsonText := some "   ", jsonLanguage := some "en" })
      , available := true
      , wav := { nchannels := 1, sampwidth := 2, framerate := 16000
               , chunks := [], finalText := "" } }).result
      = some { text := "", confidence := 9/10, language := "en" } ∧
    ¬ ((9 : ℚ)/10 = 0) :=
  ⟨rfl, by norm_num⟩

/-- C3 (amended): every result of the two local paths (file decode and raw
frames) with empty text has confidence exactly 0.0; the remote path instead
carries the fixed confidence 0.9 regardless of its text, empty included. -/
theorem empty_text_zero_confidence_local :
    (∀ w : LocalWav, ∀ r, (localDecode w).1 = some r → r.text = "" → r.confidence = 0) ∧
    (∀ d : RawFrames, ∀ r, transcribe_audio_data d = some r → r.text = "" → r.confidence = 0) ∧
    (∀ resp res, whisper_transcribe resp = some res → res.confidence = 9/10) := by
  refine ⟨?_, ?_, whisper_confidence_const⟩
  · intro w r h ht
    simp only [localDecode] at h
    split_ifs at h with h1 h2 h3
    · injection h with h
      rw [← h]
    · injection h with h
      rw [← h] at ht
      exact absurd ht h3
  · intro d r h ht
    simp only [transcribe_audio_data] at h
    split_ifs at h with h1 h2
    · injection h with h
      rw [← h]
    · injection h with h
      rw [← h] at ht
      exact absurd ht h2

/-- C3 (amended) witness: a local decode with no recognized speech returns
empty text, and the amended invariant gives confidence 0 for it. -/
theorem empty_text_zero_confidence_local_witness :
    (localDecode { nchannels := 1, sampwidth := 2, framerate := 16000
                 , chunks := [none], finalText := "  " }).1
      = some { text := "", confidence := 0, language := "en-us" } ∧
    ({ text := "", confidence := 0, language := "en-us" } : TranscriptionResult).confidence
      = 0 :=
  ⟨rfl, empty_text_zero_confidence_local.1
    { nchannels := 1, sampwidth := 2, framerate := 16000
    , chunks := [none], finalText := "  " }
    { text := "", confidence := 0, language := "en-us" } rfl rfl⟩

/-- C5: in the local Vosk decode, a channel count other than 1 or a sample
width other than 2 bytes is a hard error — no result, no audio fed to the
recognizer — while the sample rate does not influence the outcome at all:
decoding proceeds and returns a result whatever the rate. -/
theorem localDecode_format_validation (w : LocalWav) :
    ((w.nchannels ≠ 1 ∨ w.sampwidth ≠ 2) → localDecode w = (none, false)) ∧
    (w.nchannels = 1 → w.sampwidth = 2 →
       (localDecode w).1.isSome = true ∧ (localDecode w).2 = true ∧
       ∀ rate, localDecode { w with framerate := rate } = localDecode w) := by
  constructor
  · rintro (h | h) <;> simp [localDecode, h]
  · intro h1 h2
    refine ⟨?_, ?_, fun rate => rfl⟩ <;>
      by_cases hf : localFullText w = "" <;>
        simp [localDecode, h1, h2, hf]

/-- C5 witness: a stereo file is rejected with nothing decoded; a mono
16-bit file at a non-16000 rate still decodes to a result. -/
theorem localDecode_format_validation_witness :
    localDecode { nchannels := 2, sampwidth := 2, framerate := 16000
                , chunks := [some "hi"], finalText := "" } = (none, false) ∧
    (localDecode { nchannels := 1, sampwidth := 2, framerate := 8000
                 , chunks := [some "hi"], finalText := "" }).1.isSome = true :=
  ⟨(localDecode_format_validation _).1 (Or.inl (by decide)),
   ((localDecode_format_validation _).2 rfl rfl).1⟩

/-- C6 (code bug): the claimed level formula over the true RMS of the
samples fails on the program.  The code squares the samples inside a numpy
`int16` array, which wraps mod 2^16 — 32767² ≡ 1 — so for the full-scale
frame [32767] the program computes rms = 1 and, 20·log10(1/32767) lying
below the floor, returns -80 dB; the claim's formula with the true RMS
32767 gives 20·log10(32767/32767) = 0 dB.  A full-scale frame therefore
reads as silence on the level meter. -/
theorem calculate_audio_level_wrap_bug :
    sq16 32767 = 1 ∧
    frameRMS [(32767 : ℤ)] = 1 ∧
    calculate_audio_level [(32767 : ℤ)] = -80 ∧
    20 * Real.logb 10 ((32767 : ℝ) / 32767) = 0 ∧
    ((-80 : ℝ) ≠ 0) := by
  have hsq : sq16 32767 = 1 := by decide
  have hrms : frameRMS [(32767 : ℤ)] = 1 := by
    rw [frameRMS]
    simp only [List.map_cons, List.map_nil, List.sum_cons, List.sum_nil, List.length_cons,
      List.length_nil, hsq]
    norm_num
  have h4 : (4 : ℝ) ≤ Real.logb 10 32767 := by
    rw [Real.le_logb_iff_rpow_le (by norm_num) (by norm_num)]
    rw [show (4 : ℝ) = ((4 : ℕ) : ℝ) by norm_num, Real.rpow_natCast]
    norm_num
  have hfloor : 20 * Real.logb 10 ((1 : ℝ) / 32767) ≤ -80 := by
    rw [one_div, Real.logb_inv]
    linarith
  refine ⟨hsq, hrms, ?_, ?_, by norm_num⟩
  · rw [calculate_audio_level, hrms, if_pos (by norm_num : (1 : ℝ) > 0),
      max_eq_right hfloor]
  · rw [div_self (by norm_num : (32767 : ℝ) ≠ 0), Real.logb_one, mul_zero]

/-- Sum of the lengths of equal-length chunks. -/
theorem sum_lengths_of_const (k : Nat) :
    ∀ l : List (List Nat), (∀ c ∈ l, c.length = k) →
      (l.map List.length).sum = l.length * k
  | [], _ => by simp
  | c :: cs, h => by
      have ht := sum_lengths_of_const k cs (fun x hx => h x (List.mem_cons_of_mem c hx))
      have hc := h c (List.mem_cons_self c cs)
      simp [hc, ht, Nat.succ_mul, Nat.add_comm]

/-- C7: persisting a buffer of N full frames and recomputing the duration
from the written file's byte size at 32000 bytes per second gives exactly
N·frameDurationMs + 1 ms — within one millisecond (one rounding step of the
integer-millisecond estimate) of the true N·frameDurationMs; the 1 ms
surplus is the 44-byte wave header divided by the byte-rate constant. -/
theorem save_roundtrip_duration (now : Timestamp) (buf : List (List Nat)) (N : Nat)
    (hn : buf.length = N)
    (hfull : ∀ c ∈ buf, c.length = chunk_size * sampleWidthBytes) :
    duration_ms_of_size (save_audio_data now buf).sizeBytes = N * frameDurationMs + 1 ∧
    duration_ms_of_size (save_audio_data now buf).sizeBytes - N * frameDurationMs ≤ 1 := by
  have hsum : (buf.map List.length).sum = N * 2048 := by
    rw [sum_lengths_of_const (chunk_size * sampleWidthBytes) buf hfull, hn]
    rfl
  have hsize : (save_audio_data now buf).sizeBytes = 44 + N * 2048 := by
    simp [save_audio_data, wavHeaderBytes, hsum]
  rw [hsize]
  have hd : duration_ms_of_size (44 + N * 2048) = N * frameDurationMs + 1 := by
    show (44 + N * 2048) * 1000 / 32000 = N * frameDurationMs + 1
    have : frameDurationMs = 64 := rfl
    rw [this]
    omega
  rw [hd]
  omega

/-- C7 witness: a two-frame buffer reproduces 2 × 64 ms within one
millisecond. -/
theorem save_roundtrip_duration_witness :
    duration_ms_of_size (save_audio_data
        { year := 2026, month := 1, day := 2, hour := 3, minute := 4, second := 5 }
        [List.replicate 2048 0, List.replicate 2048 0]).sizeBytes
      = 2 * frameDurationMs + 1 :=
  (save_roundtrip_duration
    { year := 2026, month := 1, day := 2, hour := 3, minute := 4, second := 5 }
    [List.replicate 2048 0, List.replicate 2048 0] 2 rfl
    (by
      intro c hc
      have hce : c = List.replicate 2048 0 := by
        rcases List.mem_cons.mp hc with h | h
        · exact h
        · exact List.mem_singleton.mp h
      rw [hce, List.length_replicate]
      rfl)).1

/-- C8: `cleanup_retention` with a zero or negative retention window is a
no-op on every directory state: it returns 0 and the directory contents are
unchanged. -/
theorem cleanup_retention_nonpos_noop (days now : Int) (files : List FileEntry)
    (h : days ≤ 0) : cleanup_retention days now files = (0, files) := by
  simp [cleanup_retention, h]

/-- C8 witness: a zero-day window deletes nothing even from a directory
holding an arbitrarily old recording. -/
theorem cleanup_retention_nonpos_noop_witness :
    cleanup_retention 0 1700000000 [{ filename := "recording_20200101_000000.wav", mtime := 0 }]
      = (0, [{ filename := "recording_20200101_000000.wav", mtime := 0 }]) :=
  cleanup_retention_nonpos_noop 0 1700000000 _ (by decide)

/-- C9 counterexample: the persist path for captured buffers,
`_save_audio_data`, performs no `chmod` at all — the written file keeps
whatever mode the process umask yields — while `FileManager.save` (a
different path, not used for captured buffers) is the one that sets 0o600.
This refutes the owner-only-permissions part of the claim at a concrete
persist. -/
theorem save_audio_data_no_chmod_cex :
    (save_audio_data { year := 2026, month := 1, day := 2, hour := 3, minute := 4, second := 5 }
        [List.replicate 2048 0]).permSet = none ∧
    (fm_save [0] "import.wav").permSet = some 0o600 :=
  ⟨rfl, rfl⟩

/-- C9 (amended): every persist of a captured buffer writes a PCM WAV
container (mono, 16-bit, 16 kHz) named `recording_<YYYYMMDD_HHMMSS>.wav`
from the current timestamp with second resolution, but sets no permissions
on the written file; owner-only 0o600 permissions are applied only by
`FileManager.save`, which captured buffers do not go through. -/
theorem save_audio_data_spec (now : Timestamp) (buf : List (List Nat)) :
    (save_audio_data now buf).filename = "recording_" ++ formatTimestamp now ++ ".wav" ∧
    (save_audio_data now buf).nchannels = 1 ∧
    (save_audio_data now buf).sampwidth = 2 ∧
    (save_audio_data now buf).framerate = 16000 ∧
    (save_audio_data now buf).permSet = none ∧
    ∀ blob name, (fm_save blob name).permSet = some 0o600 :=
  ⟨rfl, rfl, rfl, rfl, rfl, fun _ _ => rfl⟩

/-- C10: from a non-recording state, `start_recording` returns success (the
worker is only spawned, the stream is not yet opened); a stream-open
failure in the background worker then only clears the recording flag — the
buffer is untouched and, the failure path being a total function here, no
exception reaches the caller of start — and a subsequent `stop_recording`
returns no path. -/
theorem start_recording_async_failure (s : RecState) (now : Timestamp)
    (h : s.is_recording = false) :
    (start_recording s).1 = true ∧
    (worker_stream_open_failure (start_recording s).2).is_recording = false ∧
    (worker_stream_open_failure (start_recording s).2).audio_data = s.audio_data ∧
    (stop_recording now (worker_stream_open_failure (start_recording s).2)).1 = none := by
  simp [start_recording, h, worker_stream_open_failure, stop_recording]

/-- C10 witness: the scenario at the initial recorder state. -/
theorem start_recording_async_failure_witness :
    (start_recording { is_recording := false, audio_data := [] }).1 = true ∧
    (worker_stream_open_failure
        (start_recording { is_recording := false, audio_data := [] }).2).is_recording = false ∧
    (worker_stream_open_failure
        (start_recording { is_recording := false, audio_data := [] }).2).audio_data
      = ({ is_recording := false, audio_data := [] } : RecState).audio_data ∧
    (stop_recording { year := 2026, month := 1, day := 2, hour := 3, minute := 4, second := 5 }
        (worker_stream_open_failure
          (start_recording { is_recording := false, audio_data := [] }).2)).1 = none :=
  start_recording_async_failure _
    { year := 2026, month := 1, day := 2, hour := 3, minute := 4, second := 5 } rfl

end VoiceRecorder
